import Mathlib

/-!
Shallow embedding of the booking conflict/availability and status-lifecycle
subsystem of the car-rental backend (bookings/services.py, bookings/models.py,
cars/models.py, cars/services.py).

Conventions of the embedding:
- datetimes are integers counting seconds (Python datetime arithmetic on
  timezone-aware datetimes is exact to the microsecond; only whole-second
  instants appear in the claims, so `Int` seconds is faithful);
- `Decimal` money amounts with two decimal places are integer cents, so
  `Decimal(days) * price_per_day` is exactly `days * cents`;
- the database table of bookings is a `DB`: a list of rows plus the next
  fresh primary key; Django `.save()` after mutating one field of a fetched
  instance is an update of that one field of the row with that primary key;
- raising an exception before any write is `Except.error` carrying the
  error and no new state;
- the external Stripe gateway is opaque: the response of
  `stripe.PaymentIntent.create` is an input to `create_payment_intent`, and a
  verified webhook event is an input to `handle_webhook_event`.
-/

namespace CarRental

/-- `Booking.STATUS` choices (bookings/models.py line 5). -/
inductive BookingStatus
  | pending
  | confirmed
  | cancelled
  | refunded
  | completed
deriving DecidableEq

/-- `Car.STATUS_CHOICES` (cars/models.py lines 31-36). -/
inductive CarStatus
  | available
  | maintenance
  | unavailable
  | rented
deriving DecidableEq

/-- `Car` (cars/models.py lines 28-149), restricted to the fields the booking
subsystem and the claims read: primary key (the UUID is an opaque id, embedded
as `Nat`), `price_per_day` in cents, `location` and `name` standing in for the
descriptive fields, `status`, and `is_active`. -/
structure Car where
  id : Nat
  name : String
  price_per_day : Int
  location : String
  status : CarStatus
  is_active : Bool
deriving DecidableEq

/-- `Booking` (bookings/models.py lines 4-19). `start`/`end` are instants in
seconds; `total_price` is in cents; `stripe_payment_intent` is nullable. -/
structure Booking where
  id : Nat
  user : Nat
  car : Nat
  start : Int
  «end» : Int
  total_price : Int
  status : BookingStatus
  stripe_payment_intent : Option String
deriving DecidableEq

/-- `Booking.overlaps` (bookings/models.py lines 18-19):
`not (self.end <= start or self.start >= end)`. -/
def Booking.overlaps (b : Booking) (start stop : Int) : Bool :=
  !(decide (b.«end» ≤ start) || decide (b.start ≥ stop))

/-- The bookings table: the persisted rows and the next fresh primary key. -/
structure DB where
  bookings : List Booking
  nextId : Nat
deriving DecidableEq

/-- Update of the `status` column of the row with primary key `bid`
(a fetched instance whose only mutated field is `status`, then `.save()`). -/
def DB.setStatus (db : DB) (bid : Nat) (st : BookingStatus) : DB :=
  { db with
    bookings := db.bookings.map fun b =>
      if b.id == bid then { b with status := st } else b }

/-- Update of the `stripe_payment_intent` column of the row with primary key
`bid` (a fetched instance whose only mutated field is the intent, then
`.save()`). -/
def DB.setIntent (db : DB) (bid : Nat) (intentId : String) : DB :=
  { db with
    bookings := db.bookings.map fun b =>
      if b.id == bid then { b with stripe_payment_intent := some intentId } else b }

/-- Errors of `BookingService.create_booking`: `ValueError("Car not found")`
(services.py line 39) and `BookingService.BookingConflictError`
(services.py line 43). -/
inductive CreateBookingError
  | carNotFound
  | bookingConflict
deriving DecidableEq

/-- The error of `BookingService.cancel_booking`:
`ValueError("Cannot cancel booking in current status")` (services.py line 69),
the spec's `InvalidTransition`. -/
inductive CancelError
  | invalidTransition
deriving DecidableEq

/-- The error of `PaymentService.create_payment_intent`:
`ValueError("Booking is not in pending state")` (services.py line 114),
the spec's `InvalidState`. -/
inductive PaymentError
  | invalidState
deriving DecidableEq

/-- `BookingService._is_car_available` (bookings/services.py lines 74-86):
filter the table to this car's rows with status in {pending, confirmed}, and
return False as soon as one overlaps `[start, stop)`, else True. -/
def is_car_available (db : DB) (car : Car) (start stop : Int) : Bool :=
  (db.bookings.filter fun b =>
      b.car == car.id &&
      (b.status == BookingStatus.pending || b.status == BookingStatus.confirmed)).all
    fun b => !(b.overlaps start stop)

/-- `BookingService._calculate_total_price` (bookings/services.py lines 88-93):
`duration.days` of a Python timedelta is floor division of the duration by one
day, i.e. `Int.fdiv` of the seconds by 86400; `days = max(duration.days, 1)`;
the price is `Decimal(days) * car.price_per_day`, exact in cents. -/
def calculate_total_price (car : Car) (start stop : Int) : Int :=
  (max (Int.fdiv (stop - start) 86400) 1) * car.price_per_day

/-- `BookingService.create_booking` (bookings/services.py lines 18-55):
look the car up (else `ValueError`), check availability (else
`BookingConflictError`), compute the price, insert a fresh `pending` row. -/
def create_booking (db : DB) (cars : List Car) (user carId : Nat)
    (start stop : Int) : Except CreateBookingError (Booking × DB) :=
  match cars.find? (fun c => c.id == carId) with
  | none => .error .carNotFound
  | some car =>
    if !(is_car_available db car start stop) then
      .error .bookingConflict
    else
      let b : Booking :=
        { id := db.nextId
          user := user
          car := car.id
          start := start
          «end» := stop
          total_price := calculate_total_price car start stop
          status := .pending
          stripe_payment_intent := none }
      .ok (b, { bookings := db.bookings ++ [b], nextId := db.nextId + 1 })

/-- `BookingService.cancel_booking` (bookings/services.py lines 57-72):
raise unless the status is `pending` or `confirmed`, else set it to
`cancelled` and save. -/
def cancel_booking (db : DB) (booking : Booking) : Except CancelError DB :=
  if booking.status == .pending || booking.status == .confirmed then
    .ok (db.setStatus booking.id .cancelled)
  else
    .error .invalidTransition

/-- The opaque response of `stripe.PaymentIntent.create` (services.py
lines 116-120): an intent id and a client secret minted by the gateway for
amount `int(total_price * 100)` cents and metadata `booking_id`. -/
structure GatewayIntent where
  id : String
  client_secret : String
deriving DecidableEq

/-- `PaymentService.create_payment_intent` (bookings/services.py lines
99-129): raise unless the booking is `pending`; store the gateway's intent id
on the row; return the dict `{client_secret, intent_id}`. -/
def create_payment_intent (db : DB) (booking : Booking) (intent : GatewayIntent) :
    Except PaymentError ((String × String) × DB) :=
  if booking.status != .pending then
    .error .invalidState
  else
    .ok ((intent.client_secret, intent.id), db.setIntent booking.id intent.id)

/-- The `payment_intent` object of a verified webhook event: the gateway's
intent id and `metadata.get("booking_id")` (`none` embeds a missing or falsy
key, for which services.py line 150 does nothing; a present numeric id is a
`Nat` like the primary keys it is compared with). -/
structure PaymentIntentObject where
  id : String
  metadata_booking_id : Option Nat
deriving DecidableEq

/-- `PaymentService._handle_payment_success` (bookings/services.py lines
146-157): read `metadata.booking_id`; if present, fetch the booking by id —
`DoesNotExist` is swallowed (lines 155-157) — and set its status to
`confirmed` and save. -/
def handle_payment_success (db : DB) (payment_intent : PaymentIntentObject) : DB :=
  match payment_intent.metadata_booking_id with
  | none => db
  | some bid =>
    match db.bookings.find? (fun b => b.id == bid) with
    | none => db
    | some _ => db.setStatus bid .confirmed

/-- A verified Stripe webhook event (the output of
`PaymentService.verify_webhook`): its `type` and its `data.object`. -/
structure StripeEvent where
  type : String
  obj : PaymentIntentObject
deriving DecidableEq

/-- `PaymentService.handle_webhook_event` (bookings/services.py lines
140-144): dispatch `payment_intent.succeeded` to the success handler, ignore
every other type. -/
def handle_webhook_event (db : DB) (event : StripeEvent) : DB :=
  if event.type == "payment_intent.succeeded" then
    handle_payment_success db event.obj
  else
    db

/-- `CarService.update_car_status_after_booking` (cars/services.py lines
88-111). `now` is `timezone.now()`; the active-bookings filter is
`status__in=['pending','confirmed'], start__lte=now, end__gte=now`. Returns
the car row as saved (only `status` is ever assigned). -/
def update_car_status_after_booking (db : DB) (car : Car)
    (booking_status : BookingStatus) (now : Int) : Car :=
  if booking_status == .confirmed then
    { car with status := .rented }
  else if booking_status == .cancelled || booking_status == .completed then
    let active_bookings := db.bookings.any fun b =>
      b.car == car.id &&
      (b.status == BookingStatus.pending || b.status == BookingStatus.confirmed) &&
      decide (b.start ≤ now) && decide (now ≤ b.«end»)
    if !active_bookings then { car with status := .available } else car
  else
    car

/-- Phase 1 of `create_booking` as one request executes it: the car lookup and
the availability read (services.py lines 36-43), against the database state it
observes. -/
def create_booking_check (db : DB) (cars : List Car) (carId : Nat)
    (start stop : Int) : Except CreateBookingError Car :=
  match cars.find? (fun c => c.id == carId) with
  | none => .error .carNotFound
  | some car =>
    if !(is_car_available db car start stop) then
      .error .bookingConflict
    else
      .ok car

/-- Phase 2 of `create_booking`: the price computation and the insert
(services.py lines 45-55), against the database state current when the insert
commits. `create_booking` wraps the two phases in no transaction or lock. -/
def create_booking_insert (db : DB) (user : Nat) (car : Car)
    (start stop : Int) : Booking × DB :=
  let b : Booking :=
    { id := db.nextId
      user := user
      car := car.id
      start := start
      «end» := stop
      total_price := calculate_total_price car start stop
      status := .pending
      stripe_payment_intent := none }
  (b, { bookings := db.bookings ++ [b], nextId := db.nextId + 1 })

/-- The interleaving of two concurrent `create_booking` requests in which both
availability checks read the initial database state before either insert
commits — the schedule nothing in services.py excludes. -/
def race_both_checks_first (db : DB) (cars : List Car)
    (u1 c1 : Nat) (s1 e1 : Int) (u2 c2 : Nat) (s2 e2 : Int) :
    Except CreateBookingError Booking × Except CreateBookingError Booking × DB :=
  match create_booking_check db cars c1 s1 e1,
        create_booking_check db cars c2 s2 e2 with
  | .error err1, .error err2 => (.error err1, .error err2, db)
  | .error err1, .ok car2 =>
    let r2 := create_booking_insert db u2 car2 s2 e2
    (.error err1, .ok r2.1, r2.2)
  | .ok car1, .error err2 =>
    let r1 := create_booking_insert db u1 car1 s1 e1
    (.ok r1.1, .error err2, r1.2)
  | .ok car1, .ok car2 =>
    let r1 := create_booking_insert db u1 car1 s1 e1
    let r2 := create_booking_insert r1.2 u2 car2 s2 e2
    (.ok r1.1, .ok r2.1, r2.2)

/-! ### Bridge lemmas between the executable definitions and their logical
reading -/

/-- The availability check returns `true` exactly when every `pending` or
`confirmed` booking of this car misses `[start, stop)` under the half-open
overlap test. -/
theorem is_car_available_iff (db : DB) (car : Car) (start stop : Int) :
    is_car_available db car start stop = true ↔
      ∀ b ∈ db.bookings, b.car = car.id →
        (b.status = .pending ∨ b.status = .confirmed) →
        (b.«end» ≤ start ∨ b.start ≥ stop) := by
  unfold is_car_available Booking.overlaps
  simp only [List.all_eq_true, List.mem_filter, Bool.and_eq_true,
    Bool.or_eq_true, beq_iff_eq, Bool.not_not, decide_eq_true_eq]
  constructor
  · intro h b hb hcar hst
    exact h b ⟨hb, hcar, hst⟩
  · intro h b hb
    exact h b hb.1 hb.2.1 hb.2.2

/-- The active-bookings filter of `update_car_status_after_booking` finds a
row exactly when some `pending`/`confirmed` booking of this car has
`start ≤ now ≤ end`. -/
theorem active_bookings_any_iff (db : DB) (car : Car) (now : Int) :
    (db.bookings.any fun b =>
        b.car == car.id &&
        (b.status == BookingStatus.pending || b.status == BookingStatus.confirmed) &&
        decide (b.start ≤ now) && decide (now ≤ b.«end»)) = true ↔
      ∃ b ∈ db.bookings, b.car = car.id ∧
        (b.status = .pending ∨ b.status = .confirmed) ∧
        b.start ≤ now ∧ now ≤ b.«end» := by
  simp only [List.any_eq_true, Bool.and_eq_true, Bool.or_eq_true, beq_iff_eq,
    decide_eq_true_eq]
  constructor
  · rintro ⟨b, hb, ⟨⟨hcar, hst⟩, h1⟩, h2⟩
    exact ⟨b, hb, hcar, hst, h1, h2⟩
  · rintro ⟨b, hb, hcar, hst, h1, h2⟩
    exact ⟨b, hb, ⟨⟨hcar, hst⟩, h1⟩, h2⟩

/-- `List.find?` commutes with a map that does not change the predicate. -/
theorem find?_map_of_pred_eq {α : Type} (f : α → α) (p : α → Bool) (l : List α)
    (h : ∀ a, p (f a) = p a) :
    (l.map f).find? p = (l.find? p).map f := by
  induction l with
  | nil => rfl
  | cons a l ih =>
    by_cases hp : p a = true
    · rw [List.map_cons, List.find?_cons_of_pos _ ((h a).trans hp),
        List.find?_cons_of_pos _ hp]
      rfl
    · rw [List.map_cons,
        List.find?_cons_of_neg _ (by rw [h a]; exact hp),
        List.find?_cons_of_neg _ hp, ih]

/-- The row update of `setStatus`: every row keeps its identity and every
column but `status`; `status` becomes `st` on the row with key `bid` and is
untouched elsewhere. -/
theorem setStatus_forall2 (db : DB) (bid : Nat) (st : BookingStatus) :
    List.Forall₂ (fun r r' =>
        r'.id = r.id ∧ r'.user = r.user ∧ r'.car = r.car ∧ r'.start = r.start ∧
        r'.«end» = r.«end» ∧ r'.total_price = r.total_price ∧
        r'.stripe_payment_intent = r.stripe_payment_intent ∧
        (r.id = bid → r'.status = st) ∧ (r.id ≠ bid → r'.status = r.status))
      db.bookings (db.setStatus bid st).bookings := by
  show List.Forall₂ _ db.bookings (db.bookings.map _)
  induction db.bookings with
  | nil => exact .nil
  | cons b bs ih =>
    refine .cons ?_ ih
    by_cases h : b.id = bid <;> simp [h]

/-- The row update of `setIntent`: every row keeps its identity and every
column but `stripe_payment_intent`; the intent becomes `some intentId` on the
row with key `bid` and is untouched elsewhere. -/
theorem setIntent_forall2 (db : DB) (bid : Nat) (intentId : String) :
    List.Forall₂ (fun r r' =>
        r'.id = r.id ∧ r'.user = r.user ∧ r'.car = r.car ∧ r'.start = r.start ∧
        r'.«end» = r.«end» ∧ r'.total_price = r.total_price ∧
        r'.status = r.status ∧
        (r.id = bid → r'.stripe_payment_intent = some intentId) ∧
        (r.id ≠ bid → r'.stripe_payment_intent = r.stripe_payment_intent))
      db.bookings (db.setIntent bid intentId).bookings := by
  show List.Forall₂ _ db.bookings (db.bookings.map _)
  induction db.bookings with
  | nil => exact .nil
  | cons b bs ih =>
    refine .cons ?_ ih
    by_cases h : b.id = bid <;> simp [h]

/-- After `setStatus db bid st`, every row with key `bid` carries status
`st`. -/
theorem setStatus_mem_status (db : DB) (bid : Nat) (st : BookingStatus) :
    ∀ r ∈ (db.setStatus bid st).bookings, r.id = bid → r.status = st := by
  intro r hr hid
  simp only [DB.setStatus, List.mem_map] at hr
  obtain ⟨a, _, rfl⟩ := hr
  by_cases h : a.id = bid
  · simp [h]
  · simp [h] at hid

/-- After `setIntent db bid s`, every row with key `bid` stores intent
`some s`. -/
theorem setIntent_mem_intent (db : DB) (bid : Nat) (s : String) :
    ∀ r ∈ (db.setIntent bid s).bookings, r.id = bid →
      r.stripe_payment_intent = some s := by
  intro r hr hid
  simp only [DB.setIntent, List.mem_map] at hr
  obtain ⟨a, _, rfl⟩ := hr
  by_cases h : a.id = bid
  · simp [h]
  · simp [h] at hid

/-- Fetching by primary key commutes with a status update (the key column is
not touched). -/
theorem find?_setStatus (db : DB) (bid : Nat) (st : BookingStatus) (k : Nat) :
    (db.setStatus bid st).bookings.find? (fun b => b.id == k) =
      (db.bookings.find? (fun b => b.id == k)).map
        (fun b => if b.id == bid then { b with status := st } else b) := by
  apply find?_map_of_pred_eq
  intro a
  by_cases h : a.id = bid <;> simp [h]

/-- Writing the same status to the same row twice is one write. -/
theorem setStatus_setStatus (db : DB) (bid : Nat) (st : BookingStatus) :
    (db.setStatus bid st).setStatus bid st = db.setStatus bid st := by
  simp only [DB.setStatus, List.map_map]
  congr 1
  apply List.map_congr_left
  intro a _
  by_cases h : a.id = bid <;> simp [h]

/-- `_handle_payment_success` is idempotent: a second delivery of the same
event finds the same row (its key is unchanged) and rewrites the same
status. -/
theorem handle_payment_success_idem (db : DB) (pi : PaymentIntentObject) :
    handle_payment_success (handle_payment_success db pi) pi =
      handle_payment_success db pi := by
  unfold handle_payment_success
  cases hm : pi.metadata_booking_id with
  | none => rfl
  | some bid =>
    cases hf : db.bookings.find? (fun b => b.id == bid) with
    | none => simp [hf]
    | some b =>
      simp only [hf, find?_setStatus, Option.map_some]
      exact setStatus_setStatus db bid .confirmed

/-- `create_booking` is literally its check phase followed by its insert
phase against the unchanged database state. -/
theorem create_booking_eq_phases (db : DB) (cars : List Car) (user carId : Nat)
    (start stop : Int) :
    create_booking db cars user carId start stop =
      (create_booking_check db cars carId start stop).map
        (fun car => create_booking_insert db user car start stop) := by
  unfold create_booking create_booking_check create_booking_insert
  cases cars.find? (fun c => c.id == carId) with
  | none => rfl
  | some car =>
    by_cases h : is_car_available db car start stop <;> simp [h, Except.map]

/-- When the car is found and available, `create_booking` returns exactly the
fresh `pending` row appended to the table. -/
theorem create_booking_ok_of_available (db : DB) (cars : List Car)
    (user carId : Nat) (start stop : Int) (car : Car)
    (hcar : cars.find? (fun c => c.id == carId) = some car)
    (hav : is_car_available db car start stop = true) :
    create_booking db cars user carId start stop =
      .ok ({ id := db.nextId, user := user, car := car.id, start := start,
             «end» := stop, total_price := calculate_total_price car start stop,
             status := .pending, stripe_payment_intent := none },
           { bookings := db.bookings ++
               [{ id := db.nextId, user := user, car := car.id, start := start,
                  «end» := stop,
                  total_price := calculate_total_price car start stop,
                  status := .pending, stripe_payment_intent := none }],
             nextId := db.nextId + 1 }) := by
  simp [create_booking, hcar, hav]

/-! ### The claims -/

/-- C1: for an existing car and a candidate half-open range `[start, stop)`
with `start < stop`, `create_booking` succeeds and persists a new booking with
status `pending` if and only if no existing booking for that car with status
in {pending, confirmed} overlaps the range, where `[s1,e1)` and `[s2,e2)`
overlap iff `¬(e1 ≤ s2 ∨ s1 ≥ e2)` — so back-to-back bookings sharing a
boundary instant do not conflict and cancelled/refunded/completed bookings
never block; on a conflict it fails with the `BookingConflict` error and no
record is created. -/
theorem claim_C1_create_booking_conflict_iff (db : DB) (cars : List Car)
    (user carId : Nat) (start stop : Int) (car : Car)
    (hcar : cars.find? (fun c => c.id == carId) = some car)
    (hrange : start < stop) :
    ((∃ b db', create_booking db cars user carId start stop = .ok (b, db')) ↔
      ∀ b ∈ db.bookings, b.car = car.id →
        (b.status = .pending ∨ b.status = .confirmed) →
        (b.«end» ≤ start ∨ b.start ≥ stop)) ∧
    (∀ b db', create_booking db cars user carId start stop = .ok (b, db') →
      b.status = .pending ∧ b.car = car.id ∧ b.start = start ∧
      b.«end» = stop ∧ db'.bookings = db.bookings ++ [b]) ∧
    ((∃ b ∈ db.bookings, b.car = car.id ∧
        (b.status = .pending ∨ b.status = .confirmed) ∧
        ¬(b.«end» ≤ start ∨ b.start ≥ stop)) →
      create_booking db cars user carId start stop = .error .bookingConflict) := by
  by_cases hav : is_car_available db car start stop = true
  · refine ⟨⟨fun _ => (is_car_available_iff db car start stop).mp hav,
      fun _ => ⟨_, _, create_booking_ok_of_available db cars user carId start stop car hcar hav⟩⟩,
      ?_, ?_⟩
    · intro b db' hok
      rw [create_booking_ok_of_available db cars user carId start stop car hcar hav,
        Except.ok.injEq, Prod.mk.injEq] at hok
      obtain ⟨hb, hdb⟩ := hok
      rw [← hb, ← hdb]
      exact ⟨rfl, rfl, rfl, rfl, rfl⟩
    · rintro ⟨b, hb, hc, hs, hov⟩
      exact absurd ((is_car_available_iff db car start stop).mp hav b hb hc hs) hov
  · have hav' : is_car_available db car start stop = false :=
      Bool.not_eq_true _ ▸ hav
    refine ⟨⟨?_, ?_⟩, ?_, ?_⟩
    · rintro ⟨b, db', hok⟩
      simp [create_booking, hcar, hav'] at hok
    · intro hall
      exact absurd ((is_car_available_iff db car start stop).mpr hall) hav
    · intro b db' hok
      simp [create_booking, hcar, hav'] at hok
    · intro _
      simp [create_booking, hcar, hav']

/-- C1 witness: with car 1 already booked `[0, 200)` (pending), a request for
`[100, 300)` on the same car fails with `BookingConflict`. -/
theorem claim_C1_witness :
    create_booking
      { bookings := [{ id := 1, user := 1, car := 1, start := 0, «end» := 200,
                       total_price := 5000, status := .pending,
                       stripe_payment_intent := none }],
        nextId := 2 }
      [{ id := 1, name := "sedan", price_per_day := 5000, location := "lahore",
         status := .available, is_active := true }]
      7 1 100 300 = .error .bookingConflict :=
  (claim_C1_create_booking_conflict_iff
    { bookings := [{ id := 1, user := 1, car := 1, start := 0, «end» := 200,
                     total_price := 5000, status := .pending,
                     stripe_payment_intent := none }],
      nextId := 2 }
    [{ id := 1, name := "sedan", price_per_day := 5000, location := "lahore",
       status := .available, is_active := true }]
    7 1 100 300
    { id := 1, name := "sedan", price_per_day := 5000, location := "lahore",
      status := .available, is_active := true }
    rfl (by decide)).2.2 (by decide)

/-- C4: for every booking created by `create_booking` with `start < stop` on a
car with daily price `p`, the persisted total price is exactly
`max(whole days in stop − start, 1) × p` (exact in cents, hence to 2 decimal
places); in particular any booking of at most 24 hours costs exactly one full
day. -/
theorem claim_C4_total_price (db : DB) (cars : List Car) (user carId : Nat)
    (start stop : Int) (car : Car) (b : Booking) (db' : DB)
    (hcar : cars.find? (fun c => c.id == carId) = some car)
    (hrange : start < stop)
    (hok : create_booking db cars user carId start stop = .ok (b, db')) :
    b.total_price = max (Int.fdiv (stop - start) 86400) 1 * car.price_per_day ∧
    (stop - start ≤ 86400 → b.total_price = car.price_per_day) := by
  by_cases hav : is_car_available db car start stop = true
  · rw [create_booking_ok_of_available db cars user carId start stop car hcar hav,
      Except.ok.injEq, Prod.mk.injEq] at hok
    obtain ⟨hb, _⟩ := hok
    have hprice : b.total_price =
        max (Int.fdiv (stop - start) 86400) 1 * car.price_per_day := by
      rw [← hb]; rfl
    refine ⟨hprice, fun hshort => ?_⟩
    have hone : max (Int.fdiv (stop - start) 86400) 1 = 1 := by
      rcases lt_or_eq_of_le hshort with hlt | heq
      · rw [Int.fdiv_eq_ediv _ (by norm_num),
          Int.ediv_eq_zero_of_lt (by omega) hlt]
        exact max_eq_right (by norm_num)
      · rw [heq, Int.fdiv_self (by norm_num)]
        exact max_self 1
    rw [hprice, hone, one_mul]
  · have hav' : is_car_available db car start stop = false :=
      Bool.not_eq_true _ ▸ hav
    simp [create_booking, hcar, hav'] at hok

/-- C4 witness: a $50/day car (5000 cents) booked 10:00 Jan 1 to 10:00 Jan 2
(seconds 36000 to 122400, exactly 24 hours) costs exactly $50.00. -/
theorem claim_C4_witness :
    ({ id := 1, user := 1, car := 1, start := 36000, «end» := 122400,
       total_price := 5000, status := .pending,
       stripe_payment_intent := none } : Booking).total_price = 5000 :=
  (claim_C4_total_price { bookings := [], nextId := 1 }
    [{ id := 1, name := "sedan", price_per_day := 5000, location := "lahore",
       status := .available, is_active := true }]
    1 1 36000 122400
    { id := 1, name := "sedan", price_per_day := 5000, location := "lahore",
      status := .available, is_active := true }
    { id := 1, user := 1, car := 1, start := 36000, «end» := 122400,
      total_price := 5000, status := .pending, stripe_payment_intent := none }
    { bookings := [{ id := 1, user := 1, car := 1, start := 36000,
                     «end» := 122400, total_price := 5000, status := .pending,
                     stripe_payment_intent := none }], nextId := 2 }
    rfl (by decide) rfl).2 (by decide)

/-- C9 (implicit): `create_booking` never consults the car's own `status` or
`is_active` flag — the theorem quantifies over every status and activity flag
of the target car, so a booking is created (status `pending`) even for a car
in `maintenance`, `unavailable` or `rented` status or an inactive car,
provided no pending/confirmed booking overlaps the range; moreover the result
of `create_booking` is unchanged when the target car's `status` and
`is_active` are rewritten arbitrarily. -/
theorem claim_C9_car_flags_ignored (db : DB) (cars : List Car)
    (user carId : Nat) (start stop : Int) (car : Car)
    (hcar : cars.find? (fun c => c.id == carId) = some car)
    (havail : ∀ b ∈ db.bookings, b.car = car.id →
      (b.status = .pending ∨ b.status = .confirmed) →
      (b.«end» ≤ start ∨ b.start ≥ stop)) :
    create_booking db cars user carId start stop =
      .ok ({ id := db.nextId, user := user, car := car.id, start := start,
             «end» := stop, total_price := calculate_total_price car start stop,
             status := .pending, stripe_payment_intent := none },
           { bookings := db.bookings ++
               [{ id := db.nextId, user := user, car := car.id, start := start,
                  «end» := stop,
                  total_price := calculate_total_price car start stop,
                  status := .pending, stripe_payment_intent := none }],
             nextId := db.nextId + 1 }) ∧
    (∀ (st : CarStatus) (act : Bool),
      create_booking db
          (cars.map fun c =>
            if c.id == carId then { c with status := st, is_active := act } else c)
          user carId start stop =
        create_booking db cars user carId start stop) := by
  have hav : is_car_available db car start stop = true :=
    (is_car_available_iff db car start stop).mpr havail
  constructor
  · exact create_booking_ok_of_available db cars user carId start stop car hcar hav
  · intro st act
    have hcarId : car.id = carId := by simpa using List.find?_some hcar
    have hfind : (cars.map fun c =>
        if c.id == carId then { c with status := st, is_active := act } else c).find?
          (fun c => c.id == carId) =
        some { car with status := st, is_active := act } := by
      rw [find?_map_of_pred_eq _ _ _
        (fun a => by by_cases h : a.id = carId <;> simp [h]), hcar]
      simp [hcarId]
    unfold create_booking
    rw [hfind, hcar]
    rfl

/-- C9 witness: a car under maintenance and inactive, with an empty booking
table, is still booked successfully into `pending`. -/
theorem claim_C9_witness :
    create_booking { bookings := [], nextId := 1 }
      [{ id := 1, name := "sedan", price_per_day := 5000, location := "lahore",
         status := .maintenance, is_active := false }]
      4 1 0 86400 =
      .ok ({ id := 1, user := 4, car := 1, start := 0, «end» := 86400,
             total_price := 5000, status := .pending,
             stripe_payment_intent := none },
           { bookings := [{ id := 1, user := 4, car := 1, start := 0,
                            «end» := 86400, total_price := 5000,
                            status := .pending, stripe_payment_intent := none }],
             nextId := 2 }) :=
  (claim_C9_car_flags_ignored { bookings := [], nextId := 1 }
    [{ id := 1, name := "sedan", price_per_day := 5000, location := "lahore",
       status := .maintenance, is_active := false }]
    4 1 0 86400 _ rfl (by simp)).1

/-- C2 counterexample: delivering a payment-success event for a found booking
whose status is `cancelled` is not a no-op — `_handle_payment_success` has no
status guard and rewrites the status to `confirmed`. -/
theorem claim_C2_counterexample :
    (handle_payment_success
      { bookings := [{ id := 1, user := 1, car := 1, start := 0, «end» := 86400,
                       total_price := 5000, status := .cancelled,
                       stripe_payment_intent := some "pi_1" }],
        nextId := 2 }
      { id := "pi_1", metadata_booking_id := some 1 }).bookings =
      [{ id := 1, user := 1, car := 1, start := 0, «end» := 86400,
         total_price := 5000, status := .confirmed,
         stripe_payment_intent := some "pi_1" }] := by decide

/-- C2 amended: for every delivery of a payment-success event, the handler
looks the referenced booking up by the event's metadata booking id; a missing
or falsy id and a missing booking are silently dropped without raising; a
found booking has its status set to `confirmed` regardless of its current
status (so a pending booking transitions to `confirmed` and an
already-confirmed booking is left `confirmed`, but the handler is not a no-op
on cancelled/refunded/completed bookings); delivering the same success event
twice yields the same end state as delivering it once, with no error. -/
theorem claim_C2_payment_success_handler (db : DB) (pi : PaymentIntentObject) :
    (pi.metadata_booking_id = none → handle_payment_success db pi = db) ∧
    (∀ bid, pi.metadata_booking_id = some bid →
      db.bookings.find? (fun b => b.id == bid) = none →
      handle_payment_success db pi = db) ∧
    (∀ bid b, pi.metadata_booking_id = some bid →
      db.bookings.find? (fun b => b.id == bid) = some b →
      handle_payment_success db pi = db.setStatus bid .confirmed ∧
      ∀ r ∈ (handle_payment_success db pi).bookings, r.id = bid →
        r.status = .confirmed) ∧
    handle_payment_success (handle_payment_success db pi) pi =
      handle_payment_success db pi := by
  refine ⟨?_, ?_, ?_, handle_payment_success_idem db pi⟩
  · intro h
    simp only [handle_payment_success, h]
  · intro bid hm hf
    simp only [handle_payment_success, hm, hf]
  · intro bid b hm hf
    have heq : handle_payment_success db pi = db.setStatus bid .confirmed := by
      simp only [handle_payment_success, hm, hf]
    exact ⟨heq, heq ▸ setStatus_mem_status db bid .confirmed⟩

/-- C2 witness: an event whose metadata names booking 9, absent from the
table, is silently dropped and the table is unchanged. -/
theorem claim_C2_witness :
    handle_payment_success
      { bookings := [{ id := 1, user := 1, car := 1, start := 0, «end» := 86400,
                       total_price := 5000, status := .pending,
                       stripe_payment_intent := none }],
        nextId := 2 }
      { id := "pi_9", metadata_booking_id := some 9 } =
      { bookings := [{ id := 1, user := 1, car := 1, start := 0, «end» := 86400,
                       total_price := 5000, status := .pending,
                       stripe_payment_intent := none }],
        nextId := 2 } :=
  (claim_C2_payment_success_handler
    { bookings := [{ id := 1, user := 1, car := 1, start := 0, «end» := 86400,
                     total_price := 5000, status := .pending,
                     stripe_payment_intent := none }],
      nextId := 2 }
    { id := "pi_9", metadata_booking_id := some 9 }).2.1 9 rfl rfl

/-- C3 counterexample: the terminal-state invariant fails under
payment-webhook handling — a success event naming a `refunded` booking moves
its status to `confirmed`. -/
theorem claim_C3_counterexample :
    (handle_payment_success
      { bookings := [{ id := 3, user := 2, car := 5, start := 100, «end» := 200,
                       total_price := 700, status := .refunded,
                       stripe_payment_intent := some "pi_3" }],
        nextId := 4 }
      { id := "pi_3", metadata_booking_id := some 3 }).bookings.map
        Booking.status = [BookingStatus.confirmed] := by decide

/-- C3 amended: `cancelled`, `refunded` and `completed` are terminal under
`cancel_booking` and `create_payment_intent` — both fail (with the
`InvalidTransition` and `InvalidState` errors) before writing anything — but
not under payment-webhook handling, which sets any booking named by a success
event to `confirmed` regardless of its status. -/
theorem claim_C3_terminal_states (db : DB) (booking : Booking)
    (hterm : booking.status = .cancelled ∨ booking.status = .refunded ∨
      booking.status = .completed) :
    cancel_booking db booking = .error .invalidTransition ∧
    ∀ intent, create_payment_intent db booking intent = .error .invalidState := by
  rcases hterm with h | h | h <;>
    exact ⟨by simp [cancel_booking, h],
      fun intent => by simp [create_payment_intent, h]⟩

/-- C3 witness: a `completed` booking can be neither cancelled nor given a
payment intent. -/
theorem claim_C3_witness :
    cancel_booking { bookings := [], nextId := 1 }
      { id := 2, user := 1, car := 1, start := 0, «end» := 100,
        total_price := 100, status := .completed,
        stripe_payment_intent := none } = .error .invalidTransition ∧
    create_payment_intent { bookings := [], nextId := 1 }
      { id := 2, user := 1, car := 1, start := 0, «end» := 100,
        total_price := 100, status := .completed,
        stripe_payment_intent := none }
      { id := "pi_B", client_secret := "sec_B" } = .error .invalidState := by
  have h := claim_C3_terminal_states { bookings := [], nextId := 1 }
    { id := 2, user := 1, car := 1, start := 0, «end» := 100,
      total_price := 100, status := .completed, stripe_payment_intent := none }
    (Or.inr (Or.inr rfl))
  exact ⟨h.1, h.2 { id := "pi_B", client_secret := "sec_B" }⟩

/-- C5: `cancel_booking` succeeds and sets the status to `cancelled` iff the
booking's status is `pending` or `confirmed`; from any other status it fails
with the `InvalidTransition` error and writes nothing; on success the row with
the booking's key gets status `cancelled` and every other column of every row
is unchanged. -/
theorem claim_C5_cancel_booking (db : DB) (booking : Booking) :
    ((∃ db', cancel_booking db booking = .ok db') ↔
      (booking.status = .pending ∨ booking.status = .confirmed)) ∧
    (¬(booking.status = .pending ∨ booking.status = .confirmed) →
      cancel_booking db booking = .error .invalidTransition) ∧
    (∀ db', cancel_booking db booking = .ok db' →
      db'.nextId = db.nextId ∧
      List.Forall₂ (fun r r' =>
          r'.id = r.id ∧ r'.user = r.user ∧ r'.car = r.car ∧ r'.start = r.start ∧
          r'.«end» = r.«end» ∧ r'.total_price = r.total_price ∧
          r'.stripe_payment_intent = r.stripe_payment_intent ∧
          (r.id = booking.id → r'.status = .cancelled) ∧
          (r.id ≠ booking.id → r'.status = r.status))
        db.bookings db'.bookings) := by
  by_cases h : booking.status = .pending ∨ booking.status = .confirmed
  · have hb : (booking.status == BookingStatus.pending ||
        booking.status == BookingStatus.confirmed) = true := by
      rcases h with h | h <;> simp [h]
    refine ⟨⟨fun _ => h, fun _ => ⟨db.setStatus booking.id .cancelled,
      by simp [cancel_booking, hb]⟩⟩,
      fun hn => absurd h hn, ?_⟩
    intro db' hok
    simp only [cancel_booking, hb, if_true, Except.ok.injEq] at hok
    rw [← hok]
    exact ⟨rfl, setStatus_forall2 db booking.id .cancelled⟩
  · have hb : (booking.status == BookingStatus.pending ||
        booking.status == BookingStatus.confirmed) = false := by
      cases hst : booking.status <;> simp_all
    refine ⟨⟨?_, fun hh => absurd hh h⟩,
      fun _ => by simp [cancel_booking, hb], ?_⟩
    · rintro ⟨db', hok⟩
      simp [cancel_booking, hb] at hok
    · intro db' hok
      simp [cancel_booking, hb] at hok

/-- C5 witness: cancelling a `refunded` booking fails with
`InvalidTransition`. -/
theorem claim_C5_witness :
    cancel_booking { bookings := [], nextId := 1 }
      { id := 5, user := 2, car := 3, start := 0, «end» := 100,
        total_price := 900, status := .refunded,
        stripe_payment_intent := none } = .error .invalidTransition :=
  (claim_C5_cancel_booking { bookings := [], nextId := 1 }
    { id := 5, user := 2, car := 3, start := 0, «end» := 100,
      total_price := 900, status := .refunded,
      stripe_payment_intent := none }).2.1 (by decide)

/-- C6: `create_payment_intent` succeeds iff the booking's status is
`pending` (otherwise it fails with the `InvalidState` error and writes
nothing); on success it stores the gateway's intent id on the booking's row,
returns the client secret, leaves every status (in particular the booking's,
still `pending`) and every other column unchanged; and a second call for the
same still-pending booking succeeds again, overwriting the stored
payment-intent reference with the new intent id. -/
theorem claim_C6_create_payment_intent (db : DB) (booking : Booking)
    (intent intent2 : GatewayIntent) :
    ((∃ out db', create_payment_intent db booking intent = .ok (out, db')) ↔
      booking.status = .pending) ∧
    (booking.status ≠ .pending →
      create_payment_intent db booking intent = .error .invalidState) ∧
    (∀ out db', create_payment_intent db booking intent = .ok (out, db') →
      out = (intent.client_secret, intent.id) ∧
      List.Forall₂ (fun r r' =>
          r'.id = r.id ∧ r'.user = r.user ∧ r'.car = r.car ∧ r'.start = r.start ∧
          r'.«end» = r.«end» ∧ r'.total_price = r.total_price ∧
          r'.status = r.status ∧
          (r.id = booking.id → r'.stripe_payment_intent = some intent.id) ∧
          (r.id ≠ booking.id → r'.stripe_payment_intent = r.stripe_payment_intent))
        db.bookings db'.bookings) ∧
    (booking.status = .pending →
      create_payment_intent (db.setIntent booking.id intent.id)
          { booking with stripe_payment_intent := some intent.id } intent2 =
        .ok ((intent2.client_secret, intent2.id),
          (db.setIntent booking.id intent.id).setIntent booking.id intent2.id) ∧
      ∀ r ∈ ((db.setIntent booking.id intent.id).setIntent booking.id
          intent2.id).bookings,
        r.id = booking.id → r.stripe_payment_intent = some intent2.id) := by
  by_cases h : booking.status = .pending
  · have hb : (booking.status != BookingStatus.pending) = false := by simp [h]
    refine ⟨⟨fun _ => h,
      fun _ => ⟨(intent.client_secret, intent.id), db.setIntent booking.id intent.id,
        by simp [create_payment_intent, hb]⟩⟩,
      fun hn => absurd h hn, ?_, fun _ => ⟨?_, ?_⟩⟩
    · intro out db' hok
      simp only [create_payment_intent, hb, Bool.false_eq_true, if_false,
        Except.ok.injEq, Prod.mk.injEq] at hok
      obtain ⟨ho, hd⟩ := hok
      exact ⟨ho.symm, hd ▸ setIntent_forall2 db booking.id intent.id⟩
    · simp [create_payment_intent, h]
    · exact setIntent_mem_intent _ booking.id intent2.id
  · have hb : (booking.status != BookingStatus.pending) = true := by simp [h]
    refine ⟨⟨?_, fun hh => absurd hh h⟩,
      fun _ => by simp [create_payment_intent, hb], ?_, fun hh => absurd hh h⟩
    · rintro ⟨out, db', hok⟩
      simp [create_payment_intent, hb] at hok
    · intro out db' hok
      simp [create_payment_intent, hb] at hok

/-- C6 witness: requesting a payment intent for a `confirmed` booking fails
with `InvalidState`. -/
theorem claim_C6_witness :
    create_payment_intent { bookings := [], nextId := 1 }
      { id := 8, user := 1, car := 1, start := 0, «end» := 100,
        total_price := 100, status := .confirmed,
        stripe_payment_intent := none }
      { id := "pi_A", client_secret := "sec_A" } = .error .invalidState :=
  (claim_C6_create_payment_intent { bookings := [], nextId := 1 }
    { id := 8, user := 1, car := 1, start := 0, «end» := 100,
      total_price := 100, status := .confirmed, stripe_payment_intent := none }
    { id := "pi_A", client_secret := "sec_A" }
    { id := "pi_A", client_secret := "sec_A" }).2.1 (by decide)

/-- C7: `update_car_status_after_booking` invoked for a transition to
`confirmed` sets the car's status to `rented`; invoked for a transition to
`cancelled` or `completed` it sets the car's status to `available` only if no
booking for that car with status `pending` or `confirmed` covers the present
moment (the code's filter `start ≤ now ∧ now ≤ end`), and otherwise leaves the
car unchanged; no other car field is modified in any case. -/
theorem claim_C7_update_car_status (db : DB) (car : Car)
    (booking_status : BookingStatus) (now : Int) :
    (update_car_status_after_booking db car booking_status now).id = car.id ∧
    (update_car_status_after_booking db car booking_status now).name = car.name ∧
    (update_car_status_after_booking db car booking_status now).price_per_day =
      car.price_per_day ∧
    (update_car_status_after_booking db car booking_status now).location =
      car.location ∧
    (update_car_status_after_booking db car booking_status now).is_active =
      car.is_active ∧
    (booking_status = .confirmed →
      (update_car_status_after_booking db car booking_status now).status =
        .rented) ∧
    ((booking_status = .cancelled ∨ booking_status = .completed) →
      ((∀ b ∈ db.bookings, b.car = car.id →
          (b.status = .pending ∨ b.status = .confirmed) →
          ¬(b.start ≤ now ∧ now ≤ b.«end»)) →
        (update_car_status_after_booking db car booking_status now).status =
          .available) ∧
      ((∃ b ∈ db.bookings, b.car = car.id ∧
          (b.status = .pending ∨ b.status = .confirmed) ∧
          b.start ≤ now ∧ now ≤ b.«end») →
        update_car_status_after_booking db car booking_status now = car)) := by
  cases booking_status with
  | confirmed =>
    refine ⟨rfl, rfl, rfl, rfl, rfl, fun _ => rfl, ?_⟩
    rintro (h | h) <;> exact absurd h (by decide)
  | pending =>
    refine ⟨rfl, rfl, rfl, rfl, rfl, fun h => absurd h (by decide), ?_⟩
    rintro (h | h) <;> exact absurd h (by decide)
  | refunded =>
    refine ⟨rfl, rfl, rfl, rfl, rfl, fun h => absurd h (by decide), ?_⟩
    rintro (h | h) <;> exact absurd h (by decide)
  | cancelled =>
    by_cases hA : (db.bookings.any fun b =>
        b.car == car.id &&
        (b.status == BookingStatus.pending || b.status == BookingStatus.confirmed) &&
        decide (b.start ≤ now) && decide (now ≤ b.«end»)) = true
    · have hres : update_car_status_after_booking db car .cancelled now = car := by
        simp [update_car_status_after_booking, hA]
      rw [hres]
      refine ⟨rfl, rfl, rfl, rfl, rfl, fun h => absurd h (by decide),
        fun _ => ⟨?_, fun _ => rfl⟩⟩
      intro hnone
      obtain ⟨b, hb, hcar, hst, h1, h2⟩ := (active_bookings_any_iff db car now).mp hA
      exact absurd ⟨h1, h2⟩ (hnone b hb hcar hst)
    · have hA' : (db.bookings.any fun b =>
          b.car == car.id &&
          (b.status == BookingStatus.pending || b.status == BookingStatus.confirmed) &&
          decide (b.start ≤ now) && decide (now ≤ b.«end»)) = false :=
        Bool.not_eq_true _ ▸ hA
      have hres : update_car_status_after_booking db car .cancelled now =
          { car with status := .available } := by
        simp [update_car_status_after_booking, hA']
      rw [hres]
      refine ⟨rfl, rfl, rfl, rfl, rfl, fun h => absurd h (by decide),
        fun _ => ⟨fun _ => rfl, ?_⟩⟩
      intro hex
      exact absurd ((active_bookings_any_iff db car now).mpr hex) hA
  | completed =>
    by_cases hA : (db.bookings.any fun b =>
        b.car == car.id &&
        (b.status == BookingStatus.pending || b.status == BookingStatus.confirmed) &&
        decide (b.start ≤ now) && decide (now ≤ b.«end»)) = true
    · have hres : update_car_status_after_booking db car .completed now = car := by
        simp [update_car_status_after_booking, hA]
      rw [hres]
      refine ⟨rfl, rfl, rfl, rfl, rfl, fun h => absurd h (by decide),
        fun _ => ⟨?_, fun _ => rfl⟩⟩
      intro hnone
      obtain ⟨b, hb, hcar, hst, h1, h2⟩ := (active_bookings_any_iff db car now).mp hA
      exact absurd ⟨h1, h2⟩ (hnone b hb hcar hst)
    · have hA' : (db.bookings.any fun b =>
          b.car == car.id &&
          (b.status == BookingStatus.pending || b.status == BookingStatus.confirmed) &&
          decide (b.start ≤ now) && decide (now ≤ b.«end»)) = false :=
        Bool.not_eq_true _ ▸ hA
      have hres : update_car_status_after_booking db car .completed now =
          { car with status := .available } := by
        simp [update_car_status_after_booking, hA']
      rw [hres]
      refine ⟨rfl, rfl, rfl, rfl, rfl, fun h => absurd h (by decide),
        fun _ => ⟨fun _ => rfl, ?_⟩⟩
      intro hex
      exact absurd ((active_bookings_any_iff db car now).mpr hex) hA

/-- C7 witness: after a transition to `confirmed`, the car is marked
`rented`. -/
theorem claim_C7_witness :
    (update_car_status_after_booking { bookings := [], nextId := 1 }
      { id := 1, name := "sedan", price_per_day := 5000, location := "lahore",
        status := .available, is_active := true }
      .confirmed 500).status = .rented :=
  (claim_C7_update_car_status { bookings := [], nextId := 1 }
    { id := 1, name := "sedan", price_per_day := 5000, location := "lahore",
      status := .available, is_active := true }
    .confirmed 500).2.2.2.2.2.1 rfl

/-- C8: the conflict check and the insert of `create_booking` do NOT behave
as a single atomic unit — services.py wraps them in no transaction or lock.
In the interleaving where both availability checks read the initial state
before either insert commits, two simultaneous requests for the same car with
fully overlapping (here identical) ranges BOTH succeed, persisting two
overlapping pending bookings, against the claim's "exactly one request
succeeds and the other fails with BookingConflict". -/
theorem claim_C8_race_not_atomic :
    race_both_checks_first { bookings := [], nextId := 1 }
      [{ id := 1, name := "sedan", price_per_day := 5000, location := "lahore",
         status := .available, is_active := true }]
      1 1 0 86400 2 1 0 86400 =
      (.ok { id := 1, user := 1, car := 1, start := 0, «end» := 86400,
             total_price := 5000, status := .pending,
             stripe_payment_intent := none },
       .ok { id := 2, user := 2, car := 1, start := 0, «end» := 86400,
             total_price := 5000, status := .pending,
             stripe_payment_intent := none },
       { bookings := [{ id := 1, user := 1, car := 1, start := 0,
                        «end» := 86400, total_price := 5000, status := .pending,
                        stripe_payment_intent := none },
                      { id := 2, user := 2, car := 1, start := 0,
                        «end» := 86400, total_price := 5000, status := .pending,
                        stripe_payment_intent := none }],
         nextId := 3 }) ∧
    Booking.overlaps
      { id := 1, user := 1, car := 1, start := 0, «end» := 86400,
        total_price := 5000, status := .pending, stripe_payment_intent := none }
      0 86400 = true := by
  exact ⟨rfl, by decide⟩

/-- C10 (implicit): the payment-success handler correlates events to bookings
solely through the event's metadata booking id — its result is a function of
that field alone, never of the event's intent id nor of the booking's stored
`stripe_payment_intent`; consequently a success event naming any existing
booking sets that booking's status to `confirmed` even when the stored
reference is null or differs from the event's intent id. -/
theorem claim_C10_correlation_by_booking_id (db : DB)
    (pi pi2 : PaymentIntentObject) (bid : Nat) (b : Booking) :
    (pi.metadata_booking_id = pi2.metadata_booking_id →
      handle_payment_success db pi = handle_payment_success db pi2) ∧
    (pi.metadata_booking_id = some bid →
      db.bookings.find? (fun r => r.id == bid) = some b →
      handle_payment_success db pi = db.setStatus bid .confirmed ∧
      ∀ r ∈ (handle_payment_success db pi).bookings, r.id = bid →
        r.status = .confirmed) := by
  constructor
  · intro h
    unfold handle_payment_success
    rw [h]
  · intro hm hf
    have heq : handle_payment_success db pi = db.setStatus bid .confirmed := by
      simp only [handle_payment_success, hm, hf]
    exact ⟨heq, heq ▸ setStatus_mem_status db bid .confirmed⟩

/-- C10 witness: booking 1 stores intent reference "pi_A" but a verified
success event carrying intent id "pi_B" and metadata booking id 1 still
confirms it. -/
theorem claim_C10_witness :
    handle_payment_success
      { bookings := [{ id := 1, user := 1, car := 1, start := 0, «end» := 86400,
                       total_price := 5000, status := .pending,
                       stripe_payment_intent := some "pi_A" }],
        nextId := 2 }
      { id := "pi_B", metadata_booking_id := some 1 } =
      DB.setStatus
        { bookings := [{ id := 1, user := 1, car := 1, start := 0,
                         «end» := 86400, total_price := 5000,
                         status := .pending,
                         stripe_payment_intent := some "pi_A" }],
          nextId := 2 }
        1 .confirmed :=
  (claim_C10_correlation_by_booking_id
    { bookings := [{ id := 1, user := 1, car := 1, start := 0, «end» := 86400,
                     total_price := 5000, status := .pending,
                     stripe_payment_intent := some "pi_A" }],
      nextId := 2 }
    { id := "pi_B", metadata_booking_id := some 1 }
    { id := "pi_B", metadata_booking_id := some 1 }
    1
    { id := 1, user := 1, car := 1, start := 0, «end» := 86400,
      total_price := 5000, status := .pending,
      stripe_payment_intent := some "pi_A" }).2 rfl rfl |>.1

end CarRental
